import Mathlib

/-!
Shallow embedding of `src/app.py` (CSV2API-Converter): an in-memory
pandas DataFrame exposed through `/upload`, `/records` and `/search`
FastAPI endpoints.  Machine values are modelled exactly: column dtypes
are the three buckets {integer, float, object}, cell values are tagged
unions, Python floats are modelled as {nan, inf, -inf, finite decimal},
and Python `str`/`int()`/`float()` round-tripping is modelled on the
decimal fragment those endpoints actually exercise (no exponent
notation, no surrounding whitespace).
-/

/-- Column dtype buckets, as produced by `pd.read_csv` dtype inference and
inspected by `pd.api.types.is_integer_dtype` / `is_float_dtype` /
`select_dtypes(['object','string'])` in `src/app.py`.  `read_csv` also
infers a `bool` dtype for all-True/False columns: that dtype is neither
integer- nor float-typed for `_cast_type` (the filter value stays raw
text) and is excluded from `select_dtypes(['object','string'])`. -/
inductive Dtype where
  | dint
  | dfloat
  | dbool
  | dobject
deriving DecidableEq

/-- Python float values as they occur in a parsed DataFrame: NaN, the two
infinities, or a finite decimal `m / 10^e`.  (Finite floats are dyadic
rationals; the decimal representation covers every value whose `str()`
form the modelled code prints and re-parses.) -/
inductive PyFloat where
  | nan
  | inf
  | ninf
  | fin (m : Int) (e : Nat)
deriving DecidableEq

/-- A cell value: integer, float, boolean, string, or missing (`None`). -/
inductive Val where
  | vint (n : Int)
  | vfloat (x : PyFloat)
  | vbool (b : Bool)
  | vstr (s : String)
  | vnone
deriving DecidableEq

/-- The in-memory table (`app.state.df`): ordered columns with dtypes,
and rows as positional value lists. -/
structure Table where
  cols : List (String × Dtype)
  rows : List (List Val)
deriving DecidableEq

/-! ### Decimal digits: printing and parsing

Models the decimal fragment of Python `str(int)` / `int(...)` /
`str(float)` / `float(...)` used by `_cast_type` and serialization. -/

/-- The character of a decimal digit (argument taken mod 10 is the
caller's responsibility; digits are always `< 10` here). -/
def digitChar (d : Nat) : Char :=
  match d with
  | 0 => '0' | 1 => '1' | 2 => '2' | 3 => '3' | 4 => '4'
  | 5 => '5' | 6 => '6' | 7 => '7' | 8 => '8' | _ => '9'

/-- Numeric value of a digit character. -/
def digitVal (c : Char) : Nat := c.toNat - 48

/-- Fold a big-endian digit-character list into the number it denotes. -/
def foldDigits (l : List Char) : Nat :=
  l.foldl (fun a c => 10 * a + digitVal c) 0

/-- Parse a nonempty all-digit character list; models the digit-string
core of Python `int(...)`. -/
def charsToNat (l : List Char) : Option Nat :=
  if l ≠ [] ∧ l.all Char.isDigit = true then some (foldDigits l) else none

/-- Little-endian digit characters of `n`, with explicit fuel (the fuel
`n` itself always suffices). -/
def digitsRevFuel : Nat → Nat → List Char
  | 0, _ => []
  | f + 1, n => if n = 0 then [] else digitChar (n % 10) :: digitsRevFuel f (n / 10)

/-- Big-endian digit characters of `n`; `0` prints as `"0"`.  Models
Python `str` on a nonnegative integer. -/
def natDigitChars (n : Nat) : List Char :=
  if n = 0 then ['0'] else (digitsRevFuel n n).reverse

theorem digitChar_isDigit (d : Nat) (h : d < 10) : (digitChar d).isDigit = true := by
  interval_cases d <;> decide

theorem digitsRevFuel_all_isDigit (f n : Nat) :
    (digitsRevFuel f n).all Char.isDigit = true := by
  induction f generalizing n with
  | zero => rfl
  | succ f ih =>
    unfold digitsRevFuel
    by_cases h : n = 0
    · simp [h]
    · simp only [if_neg h, List.all_cons, Bool.and_eq_true]
      exact ⟨digitChar_isDigit _ (Nat.mod_lt _ (by omega)), ih _⟩

theorem natDigitChars_all_isDigit (n : Nat) :
    (natDigitChars n).all Char.isDigit = true := by
  unfold natDigitChars
  by_cases h : n = 0
  · simp [h]
  · simp only [if_neg h, List.all_eq_true]
    intro c hc
    have hc' : c ∈ digitsRevFuel n n := by simpa using hc
    exact List.all_eq_true.mp (digitsRevFuel_all_isDigit n n) c hc'

/-- Characters of Python `str(n)` for an integer `n`. -/
def intChars (n : Int) : List Char :=
  if n < 0 then '-' :: natDigitChars n.natAbs else natDigitChars n.natAbs

/-- Signed-integer parsing on character lists: fragment `[+-]?digits`. -/
def parsePyIntChars : List Char → Option Int
  | [] => none
  | c :: rest =>
    if c = '-' then Option.map (fun k => -((k : Nat) : Int)) (charsToNat rest)
    else if c = '+' then Option.map (fun k => ((k : Nat) : Int)) (charsToNat rest)
    else Option.map (fun k => ((k : Nat) : Int)) (charsToNat (c :: rest))

/-- Models Python `int(value)` on the fragment `[+-]?digits` (no
surrounding whitespace, no underscores); returns `none` where Python
raises `ValueError`. -/
def parsePyInt (s : String) : Option Int := parsePyIntChars s.data

/-- The digit characters of `n` left-padded with `'0'` to length
at least `e + 1` (so a decimal point can be inserted `e` places from
the right). -/
def padChars (n e : Nat) : List Char :=
  List.replicate (e + 1 - (natDigitChars n).length) '0' ++ natDigitChars n

/-- Integer part of the printed float `n / 10^e`. -/
def ipChars (n e : Nat) : List Char :=
  (padChars n e).take ((padChars n e).length - e)

/-- Fractional part of the printed float `n / 10^e`. -/
def fpChars (n e : Nat) : List Char :=
  (padChars n e).drop ((padChars n e).length - e)

/-- Characters of Python `str` of the nonnegative float `n / 10^e`
(always contains a decimal point, like Python `str(float)`). -/
def uFloatChars (n e : Nat) : List Char :=
  ipChars n e ++ '.' :: (if e = 0 then ['0'] else fpChars n e)

/-- Characters of Python `str(x)` for a float `x`:
`nan`, `inf`, `-inf`, or a signed decimal. -/
def floatChars : PyFloat → List Char
  | .nan => ['n', 'a', 'n']
  | .inf => ['i', 'n', 'f']
  | .ninf => ['-', 'i', 'n', 'f']
  | .fin m e => (if m < 0 then ['-'] else []) ++ uFloatChars m.natAbs e

/-- Float negation (used when parsing a leading `'-'`). -/
def negF : PyFloat → PyFloat
  | .nan => .nan
  | .inf => .ninf
  | .ninf => .inf
  | .fin m e => .fin (-m) e

/-- Unsigned decimal-literal parsing: an optional single decimal point
between digit runs, at least one digit overall. -/
def parseUFloatBody (l : List Char) : Option PyFloat :=
  if l.dropWhile (fun c => c != '.') = [] then
    Option.map (fun k => PyFloat.fin ((k : Nat) : Int) 0) (charsToNat l)
  else
    if (l.takeWhile (fun c => c != '.') ++ (l.dropWhile (fun c => c != '.')).tail) ≠ [] ∧
        (l.takeWhile (fun c => c != '.') ++
          (l.dropWhile (fun c => c != '.')).tail).all Char.isDigit = true
    then some (.fin
      ((foldDigits (l.takeWhile (fun c => c != '.') ++
        (l.dropWhile (fun c => c != '.')).tail) : Nat) : Int)
      ((l.dropWhile (fun c => c != '.')).tail).length)
    else none

/-- Unsigned float parsing: the special words (case-insensitively)
`nan`, `inf`, `infinity`, else a decimal literal. -/
def parseUFloatChars (l : List Char) : Option PyFloat :=
  if l.map Char.toLower = ['n', 'a', 'n'] then some .nan
  else if l.map Char.toLower = ['i', 'n', 'f'] then some .inf
  else if l.map Char.toLower = ['i', 'n', 'f', 'i', 'n', 'i', 't', 'y'] then some .inf
  else parseUFloatBody l

/-- Signed float parsing on character lists. -/
def parsePyFloatChars : List Char → Option PyFloat
  | [] => none
  | c :: rest =>
    if c = '-' then Option.map negF (parseUFloatChars rest)
    else if c = '+' then parseUFloatChars rest
    else parseUFloatChars (c :: rest)

/-- Models Python `float(value)` on the fragment described above;
`none` where Python raises `ValueError`. -/
def parsePyFloat (s : String) : Option PyFloat := parsePyFloatChars s.data

/-- Python `==` on floats: NaN equals nothing (itself included), the
infinities equal themselves, finite decimals compare as rationals. -/
def pyFloatEq : PyFloat → PyFloat → Bool
  | .inf, .inf => true
  | .ninf, .ninf => true
  | .fin m e, .fin m' e' => m * (10 : Int) ^ e' == m' * (10 : Int) ^ e
  | _, _ => false

theorem padChars_all_isDigit (n e : Nat) :
    (padChars n e).all Char.isDigit = true := by
  unfold padChars
  rw [List.all_append, Bool.and_eq_true]
  constructor
  · rw [List.all_eq_true]
    intro c hc
    rw [List.eq_of_mem_replicate hc]
    decide
  · exact natDigitChars_all_isDigit n

theorem fpChars_all_isDigit (n e : Nat) : (fpChars n e).all Char.isDigit = true := by
  rw [List.all_eq_true]
  intro c hc
  exact List.all_eq_true.mp (padChars_all_isDigit n e) c (List.mem_of_mem_drop hc)

/-- Python `str()` of a cell value, as pandas `astype(str)` renders it:
a missing cell in a pandas column is NaN and stringifies to `"nan"`;
booleans stringify to `"True"`/`"False"`. -/
def pyStr : Val → String
  | .vint n => String.mk (intChars n)
  | .vfloat x => String.mk (floatChars x)
  | .vbool b => if b then "True" else "False"
  | .vstr s => s
  | .vnone => "nan"

/-- pandas elementwise `==` between a stored value and a coerced filter
value: numeric kinds (booleans counting as 0/1) compare numerically,
strings compare as strings, NaN/missing and kind mismatches — a boolean
against any string in particular — compare unequal. -/
def pyEq : Val → Val → Bool
  | .vint a, .vint b => a == b
  | .vint a, .vfloat f => pyFloatEq (.fin a 0) f
  | .vfloat f, .vint b => pyFloatEq f (.fin b 0)
  | .vfloat f, .vfloat g => pyFloatEq f g
  | .vbool a, .vbool b => a == b
  | .vbool a, .vint n => (if a then (1 : Int) else 0) == n
  | .vint n, .vbool a => n == (if a then (1 : Int) else 0)
  | .vbool a, .vfloat f => pyFloatEq (.fin (if a then 1 else 0) 0) f
  | .vfloat f, .vbool a => pyFloatEq f (.fin (if a then 1 else 0) 0)
  | .vstr s, .vstr t => s == t
  | _, _ => false

/-- `_cast_type(dtype, value)` from `src/app.py`: attempt `int(value)`
for integer dtypes, `float(value)` for float dtypes; a `ValueError`
falls through to returning the raw string.  A `bool` dtype passes
neither `is_integer_dtype` nor `is_float_dtype`, so it also gets the
raw string. -/
def cast_type (dtype : Dtype) (value : String) : Val :=
  match dtype with
  | .dint =>
    match parsePyInt value with
    | some n => .vint n
    | none => .vstr value
  | .dfloat =>
    match parsePyFloat value with
    | some x => .vfloat x
    | none => .vstr value
  | .dbool => .vstr value
  | .dobject => .vstr value

/-! ### Table access and the `/records` filter pipeline -/

/-- `df.columns`. -/
def colNames (t : Table) : List String := t.cols.map (fun p => p.1)

/-- dtype of column `i`. -/
def dtypeAt (t : Table) (i : Nat) : Dtype := (t.cols.getD i ("", .dobject)).2

/-- Index of the first column with the given name. -/
def findColIdx (name : String) : List (String × Dtype) → Option Nat
  | [] => none
  | p :: rest => if p.1 = name then some 0 else (findColIdx name rest).map (fun i => i + 1)

/-- `key in df.columns` plus the `df[key]` column lookup. -/
def colIndex (t : Table) (name : String) : Option Nat := findColIdx name t.cols

/-- Value of a row at column index `i`. -/
def rowVal (row : List Val) (i : Nat) : Val := row.getD i .vnone

/-- One loop iteration of `get_records`: if `key` names a column,
keep the rows whose value there equals the coerced filter value
(`results[results[key] == _cast_type(df[key].dtype, value)]`),
else leave `results` unchanged. -/
def applyFilter (t : Table) (rows : List (List Val)) (key value : String) :
    List (List Val) :=
  match colIndex t key with
  | some i => rows.filter (fun row => pyEq (rowVal row i) (cast_type (dtypeAt t i) value))
  | none => rows

/-- The `for key, value in params.items()` filter loop of `get_records`. -/
def applyFilters (t : Table) (params : List (String × String)) : List (List Val) :=
  params.foldl (fun rows kv => applyFilter t rows kv.1 kv.2) t.rows

/-- `params.pop('skip', None); params.pop('limit', None)`. -/
def popSkipLimit (params : List (String × String)) : List (String × String) :=
  params.filter (fun p => !(p.1 == "skip") && !(p.1 == "limit"))

/-- The filtered (pre-pagination) result set of `get_records`. -/
def recordsResults (t : Table) (params : List (String × String)) : List (List Val) :=
  applyFilters t (popSkipLimit params)

/-! ### The `/search` pipeline

`df[col].astype(str).str.contains(q, case=False, na=False)` delegates to
Python `re` with `regex=True` (the pandas default) and `re.IGNORECASE`.
The regex fragment the model covers is literal characters plus the `.`
metacharacter (enough for every claim below); `case=False` is modelled
by comparing lower-cased characters. -/

/-- A compiled regex token: a literal character or the `.` wildcard. -/
inductive RTok where
  | lit (c : Char)
  | dot
deriving DecidableEq

/-- Case-insensitive single-token match; `.` matches anything but a
newline (no `re.DOTALL`). -/
def tokMatch : RTok → Char → Bool
  | .lit a, c => a.toLower == c.toLower
  | .dot, c => c != '\n'

/-- Match the whole token list against a prefix of the text. -/
def matchToks : List RTok → List Char → Bool
  | [], _ => true
  | _ :: _, [] => false
  | t :: ts, c :: cs => tokMatch t c && matchToks ts cs

/-- `re.search` semantics: the token list matches at some position. -/
def reSearch (ts : List RTok) : List Char → Bool
  | [] => matchToks ts []
  | c :: cs => matchToks ts (c :: cs) || reSearch ts cs

/-- Compile a pattern string: `.` becomes the wildcard, any other
character a literal (the fragment of `re` the model covers). -/
def parsePat (l : List Char) : List RTok :=
  l.map (fun c => if c = '.' then .dot else .lit c)

/-- `Series.str.contains(pat, case=False, na=False)` on one cell. -/
def strContains (pat s : String) : Bool := reSearch (parsePat pat.data) s.data

/-- Indices of the columns selected by
`df.select_dtypes(include=['object','string'])`. -/
def strColIdxs (t : Table) : List Nat :=
  (List.range t.cols.length).filter (fun i => dtypeAt t i == Dtype.dobject)

/-- The mask-filtered rows of `search`: OR over string columns of
case-insensitive containment. -/
def searchResults (t : Table) (q : String) : List (List Val) :=
  t.rows.filter (fun row => (strColIdxs t).any (fun i => strContains q (pyStr (rowVal row i))))

/-! ### Pagination, cleaning, responses -/

/-- Normalize a Python slice endpoint against a sequence length:
negative indices count from the end, out-of-range indices clamp. -/
def sliceIdx (len : Nat) (i : Int) : Nat :=
  (if i < 0 then max ((len : Int) + i) 0 else min i (len : Int)).toNat

/-- Python slice `l[a:b]` (step 1); models `results.iloc[skip:skip+limit]`. -/
def pySlice {α : Type} (l : List α) (a b : Int) : List α :=
  (l.drop (sliceIdx l.length a)).take (sliceIdx l.length b - sliceIdx l.length a)

/-- `_clean_df`'s per-value replacement: NaN and the infinities become
`None`; everything else unchanged. -/
def cleanVal : Val → Val
  | .vfloat .nan => .vnone
  | .vfloat .inf => .vnone
  | .vfloat .ninf => .vnone
  | v => v

/-- `_clean_df` on one row. -/
def cleanRow (row : List Val) : List Val := row.map cleanVal

/-- `_clean_df(df)`: `df.replace({np.nan: None, np.inf: None, -np.inf: None})`. -/
def clean_df (rows : List (List Val)) : List (List Val) := rows.map cleanRow

/-- A JSON response field value: a number or the `data` row list. -/
inductive RVal where
  | num (n : Int)
  | rows (rs : List (List Val))
deriving DecidableEq

/-- An HTTPException with status code and detail. -/
inductive HErr where
  | http (code : Nat) (detail : String)
deriving DecidableEq

/-- The `GET /records` handler: 404 when no table is loaded, else the
filter loop, `iloc[skip:skip+limit]` pagination, `_clean_df` on the page,
and the four-field JSON body. -/
def get_records : Option Table → List (String × String) → Int → Int →
    Except HErr (List (String × RVal))
  | none, _, _, _ => .error (.http 404 "No CSV data uploaded yet.")
  | some t, params, skip, limit =>
    .ok [("total", .num ((recordsResults t params).length : Int)),
         ("skip", .num skip),
         ("limit", .num limit),
         ("data", .rows (clean_df (pySlice (recordsResults t params) skip (skip + limit))))]

/-- The `GET /search` handler: 404 when no table is loaded; with no
string columns, the early `{"total": 0, "data": []}` body; else the OR
mask, pagination, cleaning, and the four-field JSON body. -/
def search : Option Table → String → Int → Int → Except HErr (List (String × RVal))
  | none, _, _, _ => .error (.http 404 "No CSV data uploaded yet.")
  | some t, q, skip, limit =>
    if (strColIdxs t).length = 0 then .ok [("total", .num 0), ("data", .rows [])]
    else
      .ok [("total", .num ((searchResults t q).length : Int)),
           ("skip", .num skip),
           ("limit", .num limit),
           ("data", .rows (clean_df (pySlice (searchResults t q) skip (skip + limit))))]

/-- Boolean list-prefix test (charwise equality). -/
def pfx : List Char → List Char → Bool
  | [], _ => true
  | _ :: _, [] => false
  | a :: as, b :: bs => (a == b) && pfx as bs

/-- Python `str.endswith`, via reversed prefix comparison. -/
def strEndsWith (s suffix : String) : Bool := pfx suffix.data.reverse s.data.reverse

/-- The `POST /upload` handler.  CSV byte parsing is delegated to
`pd.read_csv`; its outcome (a table, or the exception text) is the
`parsed` argument.  Returns the response and the new store state. -/
def upload_csv (store : Option Table) (filename : String)
    (parsed : Except String Table) : Except HErr (String × Nat) × Option Table :=
  if !(strEndsWith filename ".csv") then
    (.error (.http 400 "Only CSV files are supported."), store)
  else
    match parsed with
    | .ok df =>
      (.ok ("CSV file '" ++ filename ++ "' uploaded successfully.", df.rows.length), some df)
    | .error e => (.error (.http 500 ("Failed to read CSV: " ++ e)), store)

/-- Look up a field of a JSON response body. -/
def respField (r : Except HErr (List (String × RVal))) (k : String) : Option RVal :=
  match r with
  | .ok fs => (fs.find? (fun p => p.1 == k)).map (fun p => p.2)
  | .error _ => none

/-- The `data` rows of a response (empty for errors/missing field). -/
def respDataRows (r : Except HErr (List (String × RVal))) : List (List Val) :=
  match respField r "data" with
  | some (.rows rs) => rs
  | _ => []

/-- The `total` field of a response. -/
def respTotal (r : Except HErr (List (String × RVal))) : Option Int :=
  match respField r "total" with
  | some (.num n) => some n
  | _ => none

/-- Whether a response is a success (HTTP 200) rather than an
HTTPException. -/
def isOkResp {β : Type} : Except HErr β → Bool
  | .ok _ => true
  | .error _ => false

/-! ### Spec-side notions -/

/-- Substring test on character lists. -/
def substrB (nd : List Char) : List Char → Bool
  | [] => pfx nd []
  | c :: t => pfx nd (c :: t) || substrB nd t

/-- The spec's search notion: the needle, lower-cased, occurs as a
(contiguous) substring of the haystack, lower-cased. -/
def lowerSubstr (hay needle : String) : Bool :=
  substrB (needle.data.map Char.toLower) (hay.data.map Char.toLower)

/-- Characters special in Python regular expressions. -/
def regexSpecial (c : Char) : Bool :=
  c = '.' ∨ c = '^' ∨ c = '$' ∨ c = '*' ∨ c = '+' ∨ c = '?' ∨
  c = '\x7b' ∨ c = '\x7d' ∨ c = '[' ∨ c = ']' ∨ c = '\\' ∨ c = '|' ∨
  c = '(' ∨ c = ')'

theorem mem_applyFilter (t : Table) (rows : List (List Val)) (key value : String)
    (row : List Val) :
    row ∈ applyFilter t rows key value ↔
      row ∈ rows ∧ ∀ i, colIndex t key = some i →
        pyEq (rowVal row i) (cast_type (dtypeAt t i) value) = true := by
  unfold applyFilter
  rcases hci : colIndex t key with _ | i
  · simp
  · rw [List.mem_filter]
    constructor
    · rintro ⟨h1, h2⟩
      refine ⟨h1, fun j hj => ?_⟩
      obtain rfl : i = j := Option.some.inj hj
      exact h2
    · rintro ⟨h1, h2⟩
      exact ⟨h1, h2 i rfl⟩

theorem mem_foldl_applyFilter (t : Table) (ps : List (String × String)) :
    ∀ (start : List (List Val)) (row : List Val),
      row ∈ ps.foldl (fun rows kv => applyFilter t rows kv.1 kv.2) start ↔
        row ∈ start ∧ ∀ kv ∈ ps, ∀ i, colIndex t kv.1 = some i →
          pyEq (rowVal row i) (cast_type (dtypeAt t i) kv.2) = true := by
  induction ps with
  | nil => intro start row; simp
  | cons kv ps ih =>
    intro start row
    rw [List.foldl_cons, ih, mem_applyFilter]
    constructor
    · rintro ⟨⟨h1, h2⟩, h3⟩
      refine ⟨h1, fun kv' hkv' => ?_⟩
      rcases List.mem_cons.mp hkv' with rfl | hmem
      · exact h2
      · exact h3 kv' hmem
    · rintro ⟨h1, h2⟩
      exact ⟨⟨h1, h2 kv (List.mem_cons_self _ _)⟩,
        fun kv' hmem => h2 kv' (List.mem_cons_of_mem _ hmem)⟩

theorem mem_applyFilters (t : Table) (ps : List (String × String)) (row : List Val) :
    row ∈ applyFilters t ps ↔
      row ∈ t.rows ∧ ∀ kv ∈ ps, ∀ i, colIndex t kv.1 = some i →
        pyEq (rowVal row i) (cast_type (dtypeAt t i) kv.2) = true :=
  mem_foldl_applyFilter t ps t.rows row

theorem length_pySlice {α : Type} (l : List α) (skip limit : Int)
    (hs : 0 ≤ skip) (hl : 0 ≤ limit) :
    (pySlice l skip (skip + limit)).length
      = min limit.toNat (l.length - skip.toNat) := by
  unfold pySlice sliceIdx
  rw [if_neg (not_lt.mpr hs), if_neg (not_lt.mpr (by omega : (0 : Int) ≤ skip + limit))]
  rw [List.length_take, List.length_drop]
  omega

theorem parsePat_no_special (q : List Char) (h : ∀ c ∈ q, regexSpecial c = false) :
    parsePat q = q.map RTok.lit := by
  unfold parsePat
  apply List.map_congr_left
  intro c hc
  have hne : c ≠ '.' := by
    intro hdot
    subst hdot
    have hfalse := h '.' hc
    rw [show regexSpecial '.' = true from by decide] at hfalse
    simp at hfalse
  rw [if_neg hne]

theorem matchToks_map_lit (nd : List Char) :
    ∀ h : List Char,
      matchToks (nd.map RTok.lit) h = pfx (nd.map Char.toLower) (h.map Char.toLower) := by
  induction nd with
  | nil => intro h; rfl
  | cons a as ih =>
    intro h
    cases h with
    | nil => rfl
    | cons c cs =>
      show (tokMatch (RTok.lit a) c && matchToks (as.map RTok.lit) cs)
          = ((a.toLower == c.toLower) && pfx (as.map Char.toLower) (cs.map Char.toLower))
      rw [ih cs]
      rfl

theorem reSearch_map_lit (nd : List Char) :
    ∀ h : List Char,
      reSearch (nd.map RTok.lit) h = substrB (nd.map Char.toLower) (h.map Char.toLower) := by
  intro h
  induction h with
  | nil => exact matchToks_map_lit nd []
  | cons c cs ih =>
    show (matchToks (nd.map RTok.lit) (c :: cs) || reSearch (nd.map RTok.lit) cs)
        = (pfx (nd.map Char.toLower) ((c :: cs).map Char.toLower)
            || substrB (nd.map Char.toLower) (cs.map Char.toLower))
    rw [ih, matchToks_map_lit nd (c :: cs)]

theorem strContains_no_special (q s : String)
    (h : ∀ c ∈ q.data, regexSpecial c = false) :
    strContains q s = lowerSubstr s q := by
  unfold strContains lowerSubstr
  rw [parsePat_no_special q.data h, reSearch_map_lit]

theorem respTotal_records (t : Table) (params : List (String × String))
    (skip limit : Int) :
    respTotal (get_records (some t) params skip limit)
      = some ((recordsResults t params).length : Int) := rfl

theorem respDataRows_records (t : Table) (params : List (String × String))
    (skip limit : Int) :
    respDataRows (get_records (some t) params skip limit)
      = clean_df (pySlice (recordsResults t params) skip (skip + limit)) := rfl

theorem search_eq_of_no_strcols (t : Table) (q : String) (skip limit : Int)
    (h : (strColIdxs t).length = 0) :
    search (some t) q skip limit = .ok [("total", .num 0), ("data", .rows [])] := by
  simp only [search]
  rw [if_pos h]

theorem search_eq_of_strcols (t : Table) (q : String) (skip limit : Int)
    (h : (strColIdxs t).length ≠ 0) :
    search (some t) q skip limit
      = .ok [("total", .num ((searchResults t q).length : Int)),
             ("skip", .num skip),
             ("limit", .num limit),
             ("data", .rows (clean_df (pySlice (searchResults t q) skip (skip + limit))))] := by
  simp only [search]
  rw [if_neg h]

theorem searchResults_no_strcols (t : Table) (q : String)
    (h : strColIdxs t = []) : searchResults t q = [] := by
  unfold searchResults
  rw [h]
  simp

theorem pySlice_nil {α : Type} (a b : Int) : pySlice ([] : List α) a b = [] := by
  unfold pySlice
  simp

/-- Example table from the spec's scenarios: `name,age` with rows
`Alice,30` and `Bob,25`. -/
def tAges : Table :=
  ⟨[("name", .dobject), ("age", .dint)],
   [[.vstr "Alice", .vint 30], [.vstr "Bob", .vint 25]]⟩

/-- A table with no text-typed column. -/
def tNum : Table := ⟨[("n", .dint)], [[.vint 1]]⟩

/-- A table with one float column holding NaN. -/
def tNaN : Table := ⟨[("x", .dfloat)], [[.vfloat .nan]]⟩

/-- A table with one text column holding `"ab"`. -/
def tAb : Table := ⟨[("name", .dobject)], [[.vstr "ab"]]⟩

/-- A table whose only column is literally named `skip`. -/
def tSkipCol : Table := ⟨[("skip", .dint)], [[.vint 5]]⟩

/-- C6: `_cast_type` is total (never raises): for an integer dtype a text
accepted by `int()` yields the parsed integer, for a float dtype a text
accepted by `float()` yields the parsed float, any parse failure returns
the raw text itself, and bool and text dtypes always get the raw text —
so a type-mismatched filter value degrades to text comparison instead of
failing the request. -/
theorem C6_cast_type_total_fallback (s : String) :
    (∀ n, parsePyInt s = some n → cast_type .dint s = .vint n)
    ∧ (parsePyInt s = none → cast_type .dint s = .vstr s)
    ∧ (∀ x, parsePyFloat s = some x → cast_type .dfloat s = .vfloat x)
    ∧ (parsePyFloat s = none → cast_type .dfloat s = .vstr s)
    ∧ cast_type .dbool s = .vstr s
    ∧ cast_type .dobject s = .vstr s := by
  refine ⟨?_, ?_, ?_, ?_, rfl, rfl⟩
  · intro n h
    unfold cast_type
    rw [h]
  · intro h
    unfold cast_type
    rw [h]
  · intro x h
    unfold cast_type
    rw [h]
  · intro h
    unfold cast_type
    rw [h]

theorem C6_cast_type_total_fallback_witness :
    cast_type .dint "42" = .vint 42 ∧ cast_type .dint "abc" = .vstr "abc" :=
  ⟨(C6_cast_type_total_fallback "42").1 42 (by decide),
   (C6_cast_type_total_fallback "abc").2.1 (by decide)⟩

/-- C4: a failed upload — wrong filename extension (400) or a parse
failure (500) — returns an error and leaves the store exactly as it was;
only a successful parse assigns `app.state.df`. -/
theorem C4_failed_upload_preserves_store (store : Option Table) (filename : String)
    (parsed : Except String Table)
    (h : isOkResp (upload_csv store filename parsed).1 = false) :
    (upload_csv store filename parsed).2 = store := by
  unfold upload_csv
  cases hf : strEndsWith filename ".csv" with
  | false => simp [hf]
  | true =>
    cases parsed with
    | ok df =>
      exfalso
      unfold upload_csv at h
      rw [hf] at h
      simp [isOkResp] at h
    | error e => simp [hf]

theorem C4_failed_upload_preserves_store_witness :
    (upload_csv (some tAges) "data.txt" (.ok tNum)).2 = some tAges
    ∧ (upload_csv (some tAges) "data.csv" (.error "bad bytes")).2 = some tAges :=
  ⟨C4_failed_upload_preserves_store (some tAges) "data.txt" (.ok tNum) (by decide),
   C4_failed_upload_preserves_store (some tAges) "data.csv" (.error "bad bytes") (by decide)⟩

/-- C7: with an empty store both query endpoints answer the 404
"No CSV data uploaded yet." error; with a loaded table they always
answer success — a query matching zero rows yields a success with
`total = 0` and empty `data`, never the 404. -/
theorem C7_no_data_404 (params : List (String × String)) (q : String)
    (skip limit : Int) (t : Table) :
    get_records none params skip limit = .error (.http 404 "No CSV data uploaded yet.")
    ∧ search none q skip limit = .error (.http 404 "No CSV data uploaded yet.")
    ∧ isOkResp (get_records (some t) params skip limit) = true
    ∧ isOkResp (search (some t) q skip limit) = true
    ∧ (recordsResults t params = [] →
        respDataRows (get_records (some t) params skip limit) = []
        ∧ respTotal (get_records (some t) params skip limit) = some 0)
    ∧ (searchResults t q = [] →
        respDataRows (search (some t) q skip limit) = []
        ∧ respTotal (search (some t) q skip limit) = some 0) := by
  refine ⟨rfl, rfl, rfl, ?_, ?_, ?_⟩
  · by_cases hz : (strColIdxs t).length = 0
    · rw [search_eq_of_no_strcols t q skip limit hz]
      rfl
    · rw [search_eq_of_strcols t q skip limit hz]
      rfl
  · intro he
    constructor
    · rw [respDataRows_records, he, pySlice_nil]
      rfl
    · rw [respTotal_records, he]
      rfl
  · intro he
    by_cases hz : (strColIdxs t).length = 0
    · rw [search_eq_of_no_strcols t q skip limit hz]
      exact ⟨rfl, rfl⟩
    · rw [search_eq_of_strcols t q skip limit hz]
      constructor
      · show clean_df (pySlice (searchResults t q) skip (skip + limit)) = []
        rw [he, pySlice_nil]
        rfl
      · show some ((searchResults t q).length : Int) = some 0
        rw [he]
        rfl

theorem C7_no_data_404_witness :
    get_records none [] 0 100 = .error (.http 404 "No CSV data uploaded yet.")
    ∧ (recordsResults tAges [("age", "99")] = [] →
        respDataRows (get_records (some tAges) [("age", "99")] 0 100) = []
        ∧ respTotal (get_records (some tAges) [("age", "99")] 0 100) = some 0)
    ∧ recordsResults tAges [("age", "99")] = [] :=
  ⟨(C7_no_data_404 [] "" 0 100 tAges).1,
   (C7_no_data_404 [("age", "99")] "" 0 100 tAges).2.2.2.2.1,
   by decide⟩

/-- C10: the `skip` and `limit` query parameters are always consumed as
pagination offsets — `params.pop` removes them before the filter loop —
so even on a table with a column literally named `skip` or `limit`, a
`skip=v` or `limit=v` parameter never filters by that column: the
response is identical to the one without that parameter. -/
theorem C10_skip_limit_params_never_filter (t : Table) (params : List (String × String))
    (skip limit : Int) (v : String)
    (_h : "skip" ∈ colNames t ∨ "limit" ∈ colNames t) :
    get_records (some t) (("skip", v) :: params) skip limit
        = get_records (some t) params skip limit
    ∧ get_records (some t) (("limit", v) :: params) skip limit
        = get_records (some t) params skip limit := by
  have h1 : recordsResults t (("skip", v) :: params) = recordsResults t params := by
    unfold recordsResults popSkipLimit
    rw [List.filter_cons]
    simp
  have h2 : recordsResults t (("limit", v) :: params) = recordsResults t params := by
    unfold recordsResults popSkipLimit
    rw [List.filter_cons]
    simp
  constructor
  · simp only [get_records]
    rw [h1]
  · simp only [get_records]
    rw [h2]

theorem C10_skip_limit_params_never_filter_witness :
    ("skip" ∈ colNames tSkipCol ∨ "limit" ∈ colNames tSkipCol)
    ∧ get_records (some tSkipCol) [("skip", "5")] 0 100
        = get_records (some tSkipCol) [] 0 100 :=
  ⟨Or.inl (by decide),
   (C10_skip_limit_params_never_filter tSkipCol [] 0 100 "5" (Or.inl (by decide))).1⟩

/-- C8: the `/records` equality-filter semantics: the request succeeds
for arbitrary query parameters; a parameter whose key is no column name
is ignored (its condition is vacuous, since `colIndex` finds no column);
a row survives iff it satisfies every filter whose key names a column
(conjunction); and with no filters every row is selected. -/
theorem C8_filter_semantics (t : Table) (params : List (String × String))
    (row : List Val) :
    isOkResp (get_records (some t) params 0 100) = true
    ∧ (row ∈ recordsResults t params ↔
        row ∈ t.rows ∧ ∀ kv ∈ params, kv.1 ≠ "skip" → kv.1 ≠ "limit" →
          ∀ i, colIndex t kv.1 = some i →
            pyEq (rowVal row i) (cast_type (dtypeAt t i) kv.2) = true)
    ∧ recordsResults t [] = t.rows := by
  refine ⟨rfl, ?_, rfl⟩
  unfold recordsResults
  rw [mem_applyFilters]
  constructor
  · rintro ⟨h1, h2⟩
    refine ⟨h1, fun kv hkv hs hl i hci => ?_⟩
    have hmem : kv ∈ popSkipLimit params := by
      unfold popSkipLimit
      rw [List.mem_filter]
      refine ⟨hkv, ?_⟩
      simp [hs, hl]
    exact h2 kv hmem i hci
  · rintro ⟨h1, h2⟩
    refine ⟨h1, fun kv hkv i hci => ?_⟩
    unfold popSkipLimit at hkv
    rw [List.mem_filter] at hkv
    obtain ⟨hkv1, hkv2⟩ := hkv
    simp only [Bool.and_eq_true, Bool.not_eq_true', beq_eq_false_iff_ne] at hkv2
    exact h2 kv hkv1 hkv2.1 hkv2.2 i hci

theorem C8_filter_semantics_witness :
    [Val.vstr "Alice", Val.vint 30] ∈ recordsResults tAges [("bogus", "1")] :=
  (C8_filter_semantics tAges [("bogus", "1")] [Val.vstr "Alice", Val.vint 30]).2.1.mpr
    ⟨by decide, by
      intro kv hkv hs hl i hci
      have hkv' : kv = ("bogus", "1") := List.mem_singleton.mp hkv
      rw [hkv'] at hci
      rw [show colIndex tAges "bogus" = none from by decide] at hci
      cases hci⟩

/-- C2: pagination invariants for both endpoints, for `skip, limit ≥ 0`:
the returned page has length `min limit (total - skip)` (with the
truncated subtraction playing `max 0`), and the reported `total` equals
the filtered row count before pagination, written without reference to
`skip`/`limit`. -/
theorem C2_pagination (t : Table) (params : List (String × String)) (q : String)
    (skip limit : Int) (hs : 0 ≤ skip) (hl : 0 ≤ limit) :
    (respDataRows (get_records (some t) params skip limit)).length
      = min limit.toNat ((recordsResults t params).length - skip.toNat)
    ∧ respTotal (get_records (some t) params skip limit)
      = some ((recordsResults t params).length : Int)
    ∧ (respDataRows (search (some t) q skip limit)).length
      = min limit.toNat ((searchResults t q).length - skip.toNat)
    ∧ respTotal (search (some t) q skip limit)
      = some ((searchResults t q).length : Int) := by
  refine ⟨?_, respTotal_records t params skip limit, ?_, ?_⟩
  · rw [respDataRows_records]
    unfold clean_df
    rw [List.length_map]
    exact length_pySlice _ skip limit hs hl
  · by_cases hz : (strColIdxs t).length = 0
    · have hres : searchResults t q = [] :=
        searchResults_no_strcols t q (List.length_eq_zero.mp hz)
      rw [search_eq_of_no_strcols t q skip limit hz, hres]
      show (0 : Nat) = min limit.toNat (0 - skip.toNat)
      omega
    · rw [search_eq_of_strcols t q skip limit hz]
      show (clean_df (pySlice (searchResults t q) skip (skip + limit))).length = _
      unfold clean_df
      rw [List.length_map]
      exact length_pySlice _ skip limit hs hl
  · by_cases hz : (strColIdxs t).length = 0
    · have hres : searchResults t q = [] :=
        searchResults_no_strcols t q (List.length_eq_zero.mp hz)
      rw [search_eq_of_no_strcols t q skip limit hz, hres]
      rfl
    · rw [search_eq_of_strcols t q skip limit hz]
      rfl

theorem C2_pagination_witness :
    (respDataRows (get_records (some tAges) [] 5 10)).length
      = min (10 : Int).toNat ((recordsResults tAges []).length - (5 : Int).toNat)
    ∧ respTotal (get_records (some tAges) [] 5 10)
      = some ((recordsResults tAges []).length : Int) :=
  ⟨(C2_pagination tAges [] "" 5 10 (by decide) (by decide)).1,
   (C2_pagination tAges [] "" 5 10 (by decide) (by decide)).2.1⟩

theorem cleanVal_not_special (v : Val) :
    cleanVal v ≠ .vfloat .nan ∧ cleanVal v ≠ .vfloat .inf ∧ cleanVal v ≠ .vfloat .ninf := by
  cases v with
  | vfloat x => cases x <;> simp [cleanVal]
  | vint n => simp [cleanVal]
  | vbool b => simp [cleanVal]
  | vstr s => simp [cleanVal]
  | vnone => simp [cleanVal]

/-- C9: serialization sanitization: the `data` field is exactly
`_clean_df` applied to the paginated page (and only to the page — the
cleaning sits after `iloc` in the pipeline), `_clean_df` maps NaN and
the two infinities to null while integers, booleans and strings pass
through unchanged, and consequently no value in a returned page is NaN
or an infinity. -/
theorem C9_sanitization (t : Table) (params : List (String × String)) (q : String)
    (skip limit : Int) :
    respDataRows (get_records (some t) params skip limit)
      = clean_df (pySlice (recordsResults t params) skip (skip + limit))
    ∧ respDataRows (search (some t) q skip limit)
      = clean_df (pySlice (searchResults t q) skip (skip + limit))
    ∧ cleanVal (.vfloat .nan) = .vnone
    ∧ cleanVal (.vfloat .inf) = .vnone
    ∧ cleanVal (.vfloat .ninf) = .vnone
    ∧ (∀ n : Int, cleanVal (.vint n) = .vint n)
    ∧ (∀ b : Bool, cleanVal (.vbool b) = .vbool b)
    ∧ (∀ s : String, cleanVal (.vstr s) = .vstr s)
    ∧ (∀ row ∈ respDataRows (get_records (some t) params skip limit), ∀ v ∈ row,
        v ≠ .vfloat .nan ∧ v ≠ .vfloat .inf ∧ v ≠ .vfloat .ninf)
    ∧ (∀ row ∈ respDataRows (search (some t) q skip limit), ∀ v ∈ row,
        v ≠ .vfloat .nan ∧ v ≠ .vfloat .inf ∧ v ≠ .vfloat .ninf) := by
  have hsearch : respDataRows (search (some t) q skip limit)
      = clean_df (pySlice (searchResults t q) skip (skip + limit)) := by
    by_cases hz : (strColIdxs t).length = 0
    · have hres : searchResults t q = [] :=
        searchResults_no_strcols t q (List.length_eq_zero.mp hz)
      rw [search_eq_of_no_strcols t q skip limit hz, hres, pySlice_nil]
      rfl
    · rw [search_eq_of_strcols t q skip limit hz]
      rfl
  have hclean : ∀ rows : List (List Val), ∀ row ∈ clean_df rows, ∀ v ∈ row,
      v ≠ .vfloat .nan ∧ v ≠ .vfloat .inf ∧ v ≠ .vfloat .ninf := by
    intro rows row hrow v hv
    unfold clean_df at hrow
    obtain ⟨r0, _, rfl⟩ := List.mem_map.mp hrow
    unfold cleanRow at hv
    obtain ⟨v0, _, rfl⟩ := List.mem_map.mp hv
    exact cleanVal_not_special v0
  refine ⟨respDataRows_records t params skip limit, hsearch, rfl, rfl, rfl,
    fun n => rfl, fun b => rfl, fun s => rfl, ?_, ?_⟩
  · rw [respDataRows_records]
    exact hclean _
  · rw [hsearch]
    exact hclean _

theorem C9_sanitization_witness :
    respDataRows (get_records (some tNaN) [] 0 100)
      = clean_df (pySlice (recordsResults tNaN []) 0 (0 + 100))
    ∧ (∀ row ∈ respDataRows (get_records (some tNaN) [] 0 100), ∀ v ∈ row,
        v ≠ .vfloat .nan ∧ v ≠ .vfloat .inf ∧ v ≠ .vfloat .ninf)
    ∧ respDataRows (get_records (some tNaN) [] 0 100) = [[Val.vnone]] :=
  ⟨(C9_sanitization tNaN [] "" 0 100).1,
   (C9_sanitization tNaN [] "" 0 100).2.2.2.2.2.2.2.2.1,
   by decide⟩

/-- C5 counterexample: on a table with zero text columns, `/search`
succeeds — but its body is the early `{"total": 0, "data": []}` return,
which carries no `skip` and no `limit` field, refuting "every successful
/search response carries the four fields total, skip, limit, and data". -/
theorem C5_counterexample :
    isOkResp (search (some tNum) "x" 0 100) = true
    ∧ respField (search (some tNum) "x" 0 100) "skip" = none
    ∧ respField (search (some tNum) "x" 0 100) "limit" = none
    ∧ respField (search (some tNum) "x" 0 100) "total" = some (.num 0)
    ∧ respField (search (some tNum) "x" 0 100) "data" = some (.rows []) := by
  refine ⟨rfl, ?_, ?_, rfl, rfl⟩ <;> rfl

/-- C5 (amended): on a table with zero text columns every `/search`
succeeds with the empty two-field body `{"total": 0, "data": []}` (no
error, but also no `skip`/`limit` fields); on a table with at least one
text column the successful response carries all four fields. -/
theorem C5_search_zero_text_amended (t : Table) (q : String) (skip limit : Int) :
    (strColIdxs t = [] →
      search (some t) q skip limit = .ok [("total", .num 0), ("data", .rows [])])
    ∧ (strColIdxs t ≠ [] →
      isOkResp (search (some t) q skip limit) = true
      ∧ respField (search (some t) q skip limit) "total"
          = some (.num ((searchResults t q).length : Int))
      ∧ respField (search (some t) q skip limit) "skip" = some (.num skip)
      ∧ respField (search (some t) q skip limit) "limit" = some (.num limit)
      ∧ respField (search (some t) q skip limit) "data"
          = some (.rows (clean_df (pySlice (searchResults t q) skip (skip + limit))))) := by
  constructor
  · intro hz
    exact search_eq_of_no_strcols t q skip limit (by rw [hz]; rfl)
  · intro hnz
    have hz : (strColIdxs t).length ≠ 0 := by
      intro h0
      exact hnz (List.length_eq_zero.mp h0)
    rw [search_eq_of_strcols t q skip limit hz]
    exact ⟨rfl, rfl, rfl, rfl, rfl⟩

theorem C5_search_zero_text_amended_witness :
    search (some tNum) "x" 0 100 = .ok [("total", .num 0), ("data", .rows [])]
    ∧ respField (search (some tAb) "x" 0 100) "skip" = some (.num 0) :=
  ⟨(C5_search_zero_text_amended tNum "x" 0 100).1 (by decide),
   ((C5_search_zero_text_amended tAb "x" 0 100).2 (by decide)).2.2.1⟩

/-- C1 counterexample: `str.contains` defaults to `regex=True`, so the
query is a regular expression, not a literal substring.  With query
`"."` the row `["ab"]` matches (the regex `.` matches `'a'`) although
`"."` is not a substring of `"ab"` — refuting the literal-substring
reading of the claim. -/
theorem C1_counterexample :
    [Val.vstr "ab"] ∈ searchResults tAb "."
    ∧ lowerSubstr "ab" "." = false := by
  refine ⟨by decide, by decide⟩

/-- C1 (amended): the search term is interpreted as a case-insensitive
regular expression (`str.contains` with the pandas default
`regex=True`).  For query strings free of regex metacharacters this
coincides with substring search: a row is in the `/search` result iff at
least one text-typed (object-dtype) column's value — stringified by
`astype(str)`, so a missing cell reads `"nan"` — lower-cased, contains
the lower-cased query as a substring.  Non-text columns are never
consulted. -/
theorem C1_search_substring_amended (t : Table) (q : String)
    (hq : ∀ c ∈ q.data, regexSpecial c = false) (row : List Val) :
    row ∈ searchResults t q ↔
      row ∈ t.rows ∧ ∃ i, i < t.cols.length ∧ dtypeAt t i = .dobject
        ∧ lowerSubstr (pyStr (rowVal row i)) q = true := by
  have hany : ((strColIdxs t).any (fun i => strContains q (pyStr (rowVal row i))) = true)
      ↔ ∃ i, i < t.cols.length ∧ dtypeAt t i = .dobject
          ∧ lowerSubstr (pyStr (rowVal row i)) q = true := by
    rw [List.any_eq_true]
    constructor
    · rintro ⟨i, hi, hc⟩
      unfold strColIdxs at hi
      rw [List.mem_filter, List.mem_range] at hi
      refine ⟨i, hi.1, by simpa using hi.2, ?_⟩
      rw [← strContains_no_special q _ hq]
      exact hc
    · rintro ⟨i, hi, hd, hc⟩
      refine ⟨i, ?_, ?_⟩
      · unfold strColIdxs
        rw [List.mem_filter, List.mem_range]
        exact ⟨hi, by simp [hd]⟩
      · rw [strContains_no_special q _ hq]
        exact hc
  unfold searchResults
  constructor
  · intro h
    obtain ⟨h1, h2⟩ := List.mem_filter.mp h
    exact ⟨h1, hany.mp h2⟩
  · rintro ⟨h1, h2⟩
    exact List.mem_filter.mpr ⟨h1, hany.mpr h2⟩

theorem C1_search_substring_amended_witness :
    [Val.vstr "Bob", Val.vint 25] ∈ searchResults tAges "bob" :=
  (C1_search_substring_amended tAges "bob" (by decide)
      [Val.vstr "Bob", Val.vint 25]).mpr
    ⟨by decide, 0, by decide, by decide, by decide⟩
